import Mathlib

/-!
Shallow embedding of the persistence and data-exchange layer of a small
client-management application: the JSON field normalizers and import shape
resolver (src/utils/format.ts), the SQLite-backed record store with its
schema constraints, CRUD operations, bulk clear and cross-store archive
transfer (src/hooks/useDatabase.ts), and the bulk import pipeline
(src/hooks/useClientData.ts).
-/

/-- Model of a JavaScript number: finite values are rationals, plus the
special values NaN and the two infinities. -/
inductive JsNum where
  | nan
  | posInf
  | negInf
  | fin (q : ℚ)
deriving DecidableEq, Repr

/-- Mirrors Number.isFinite on a number value. -/
def JsNum.isFinite : JsNum → Bool
  | .fin _ => true
  | _ => false

/-- Mirrors Number.isNaN on a number value. -/
def JsNum.isNaN : JsNum → Bool
  | .nan => true
  | _ => false

/-- Model of a parsed JSON / JavaScript value as it flows through the import
pipeline (undefined is included because missing object fields read as
undefined). -/
inductive JsValue where
  | null
  | undefined
  | bool (b : Bool)
  | num (n : JsNum)
  | str (s : String)
  | arr (elems : List JsValue)
  | obj (fields : List (String × JsValue))

/-- JavaScript truthiness: null, undefined, false, 0, NaN and the empty
string are falsy; every other value (arrays and objects included) is truthy. -/
def truthy : JsValue → Bool
  | .null => false
  | .undefined => false
  | .bool b => b
  | .num .nan => false
  | .num (.fin q) => decide (q ≠ 0)
  | .num _ => true
  | .str s => decide (s ≠ "")
  | .arr _ => true
  | .obj _ => true

/-- Property access on a JavaScript value: a present object field reads as its
value, everything else reads as undefined. -/
def getField (v : JsValue) (key : String) : JsValue :=
  match v with
  | .obj fields => (fields.lookup key).getD .undefined
  | _ => .undefined

/-- Model of String.prototype.trim: removes leading and trailing whitespace
characters. -/
def jsTrim (s : String) : String :=
  String.mk (((s.data.dropWhile Char.isWhitespace).reverse.dropWhile Char.isWhitespace).reverse)

/-- Numeric value of a list of decimal digit characters. -/
def digitsVal (cs : List Char) : Nat :=
  cs.foldl (fun acc c => acc * 10 + (c.toNat - '0'.toNat)) 0

/-- Partial model of the Number coercion on strings: blank strings are 0,
optionally signed decimal literals (with an optional fraction part) take
their value, the Infinity spellings take the infinities, and everything else
is NaN. Exponent forms and non-decimal radices are not modelled; the import
claims only coerce plain decimal strings. -/
def jsStringToNumber (s : String) : JsNum :=
  let t := jsTrim s
  if t = "" then .fin 0
  else if t = "Infinity" || t = "+Infinity" then .posInf
  else if t = "-Infinity" then .negInf
  else
    let signed : Int × List Char :=
      match t.data with
      | '-' :: rest => (-1, rest)
      | '+' :: rest => (1, rest)
      | rest => (1, rest)
    match signed.2.span Char.isDigit with
    | (intPart, []) =>
      if intPart.isEmpty then .nan else .fin (mkRat (signed.1 * digitsVal intPart) 1)
    | (intPart, '.' :: fracPart) =>
      if fracPart.all Char.isDigit && !(intPart.isEmpty && fracPart.isEmpty) then
        .fin (mkRat
          (signed.1 * (digitsVal intPart * 10 ^ fracPart.length + digitsVal fracPart))
          (10 ^ fracPart.length))
      else .nan
    | _ => .nan

/-- Partial model of the Number coercion on arbitrary values (used for page and
amount fields in the import pipeline): primitives follow the JavaScript rules;
singleton arrays coerce through their primitive element, the empty array to 0;
other composite values are NaN. -/
def jsNumberOf : JsValue → JsNum
  | .null => .fin 0
  | .undefined => .nan
  | .bool b => .fin (if b then 1 else 0)
  | .num n => n
  | .str s => jsStringToNumber s
  | .arr [] => .fin 0
  | .arr [.num n] => n
  | .arr [.str s] => jsStringToNumber s
  | .arr _ => .nan
  | .obj _ => .nan

/-- Lowercasing of one character as String.prototype.toLowerCase performs it on
the character ranges reachable here: ASCII letters and the Latin-1 uppercase
letters (0xC0 to 0xDE except the multiplication sign). -/
def jsCharToLower (c : Char) : Char :=
  let n := c.toNat
  if 0x41 ≤ n ∧ n ≤ 0x5A then Char.ofNat (n + 0x20)
  else if 0xC0 ≤ n ∧ n ≤ 0xDE ∧ n ≠ 0xD7 then Char.ofNat (n + 0x20)
  else c

/-- Combining grave accent U+0300. -/
def combGrave : Char := Char.ofNat 0x300

/-- Combining acute accent U+0301. -/
def combAcute : Char := Char.ofNat 0x301

/-- Combining circumflex accent U+0302. -/
def combCirc : Char := Char.ofNat 0x302

/-- Combining diaeresis U+0308. -/
def combDiaer : Char := Char.ofNat 0x308

/-- Combining cedilla U+0327. -/
def combCedil : Char := Char.ofNat 0x327

/-- Unicode NFD decomposition restricted to the precomposed lowercase Latin
letters that can reach the status normalizer after lowercasing; every other
character decomposes to itself. The produced combining marks all lie in the
range U+0300 to U+036F. -/
def nfdChar : Char → List Char
  | 'à' => ['a', combGrave]
  | 'â' => ['a', combCirc]
  | 'ä' => ['a', combDiaer]
  | 'ç' => ['c', combCedil]
  | 'è' => ['e', combGrave]
  | 'é' => ['e', combAcute]
  | 'ê' => ['e', combCirc]
  | 'ë' => ['e', combDiaer]
  | 'î' => ['i', combCirc]
  | 'ï' => ['i', combDiaer]
  | 'ô' => ['o', combCirc]
  | 'ö' => ['o', combDiaer]
  | 'ù' => ['u', combGrave]
  | 'û' => ['u', combCirc]
  | 'ü' => ['u', combDiaer]
  | 'ÿ' => ['y', combDiaer]
  | c => [c]

/-- Keeps exactly the characters outside the combining-mark range U+0300 to
U+036F, mirroring the filter in normalizeStatus. -/
def keptAfterStrip (c : Char) : Bool :=
  c.toNat < 0x300 || c.toNat > 0x36F

/-- The trim, lowercase, NFD-decompose and strip-combining-marks chain applied
to status strings in normalizeStatus. -/
def asciiFold (s : String) : String :=
  let normalized := ((jsTrim s).data.map jsCharToLower)
  String.mk ((normalized.flatMap nfdChar).filter keptAfterStrip)

/-- normalizeString from src/utils/format.ts: identity on strings, empty
string for every other value. -/
def normalizeString : JsValue → String
  | .str s => s
  | _ => ""

/-- normalizeAmount from src/utils/format.ts: Number coercion, kept when
finite, with 0 as the fallback. -/
def normalizeAmount (value : JsValue) : ℚ :=
  match jsNumberOf value with
  | .fin q => q
  | _ => 0

/-- The cascade of word tests normalizeStatus applies to the folded status
string: explicit true words, then explicit false words, then the completed or
paid keywords, with false as the default. -/
def statusFromAscii (ascii : String) : Bool :=
  if ascii = "1" ∨ ascii = "true" ∨ ascii = "oui" then true
  else if ascii = "0" ∨ ascii = "false" ∨ ascii = "non" then false
  else if ascii = "termine" ∨ ascii = "terminee" ∨ ascii = "paye" ∨ ascii = "payee" ∨
      ascii = "regle" ∨ ascii = "reglee" ∨ ascii = "solde" ∨ ascii = "soldes" then true
  else false

/-- normalizeStatus from src/utils/format.ts: booleans pass through, numbers
compare against 1, strings are folded (trim, lowercase, strip diacritics) and
matched against the explicit accepted-true and accepted-false word lists, and
every other value is false. -/
def normalizeStatus : JsValue → Bool
  | .bool b => b
  | .num n => decide (n = JsNum.fin 1)
  | .str s => statusFromAscii (asciiFold s)
  | _ => false

/-- The accepted-true word list of normalizeStatus, after diacritic folding. -/
def acceptedTrue : List String :=
  ["1", "true", "oui", "termine", "terminee", "paye", "payee",
   "regle", "reglee", "solde", "soldes"]

/-- The ensureArray helper of normalizeParsedInput: a non-array yields the
empty list, an array keeps its truthy entries. -/
def ensureArray : JsValue → List JsValue
  | .arr xs => xs.filter truthy
  | _ => []

/-- normalizeParsedInput from src/utils/format.ts (the import shape resolver):
an array yields its truthy entries; an object collects the data key (plus a
nested data.items array when data is a non-array object), then results,
clientes and clients, in that order, and falls back to the whole object as a
single candidate when nothing was collected; every other value yields no
candidates. -/
def normalizeParsedInput (raw : JsValue) : List JsValue :=
  match raw with
  | .arr _ => ensureArray raw
  | .obj _ =>
    let data := getField raw "data"
    let nested :=
      match data with
      | .obj _ => ensureArray (getField data "items")
      | _ => []
    let collected :=
      ensureArray data ++ nested ++ ensureArray (getField raw "results") ++
        ensureArray (getField raw "clientes") ++ ensureArray (getField raw "clients")
    if collected.length > 0 then collected else [raw]
  | _ => []

/-- A calendar date as the JavaScript Date getters expose it: full year,
1-based month and day of month. -/
structure SimpleDate where
  year : Int
  month : Int
  day : Int
deriving DecidableEq, Repr

/-- Serial day number of a calendar date (days since 1970-01-01, proleptic
Gregorian), following the standard civil-calendar conversion. -/
def daysFromCivil (y m d : Int) : Int :=
  let yAdj := if m ≤ 2 then y - 1 else y
  let era := Int.fdiv yAdj 400
  let yoe := yAdj - era * 400
  let mp := Int.emod (m + 9) 12
  let doy := Int.fdiv (153 * mp + 2) 5 + d - 1
  let doe := yoe * 365 + Int.fdiv yoe 4 - Int.fdiv yoe 100 + doy
  era * 146097 + doe - 719468

/-- Calendar date of a serial day number, inverse of daysFromCivil. -/
def civilFromDays (z : Int) : SimpleDate :=
  let zs := z + 719468
  let era := Int.fdiv zs 146097
  let doe := zs - era * 146097
  let yoe := Int.fdiv (doe - Int.fdiv doe 1460 + Int.fdiv doe 36524 - Int.fdiv doe 146096) 365
  let yr := yoe + era * 400
  let doy := doe - (365 * yoe + Int.fdiv yoe 4 - Int.fdiv yoe 100)
  let mp := Int.fdiv (5 * doy + 2) 153
  let d := doy - Int.fdiv (153 * mp + 2) 5 + 1
  let m := mp + (if mp < 10 then 3 else -9)
  ⟨yr + (if m ≤ 2 then 1 else 0), m, d⟩

/-- The JavaScript Date constructor new Date(year, monthIndex, day): the
0-based month index and the day are normalized by rolling out-of-range
components over into adjacent months and years. -/
def jsMakeDate (year monthIndex day : Int) : SimpleDate :=
  let y := year + Int.fdiv monthIndex 12
  let m := Int.emod monthIndex 12 + 1
  civilFromDays (daysFromCivil y m 1 + (day - 1))

/-- pad from src/utils/format.ts: decimal rendering left-padded with zeros to
two characters, as toString().padStart(2, the zero character) produces. -/
def pad (value : Int) : String :=
  let s := toString value
  if s.length ≥ 2 then s else if s.length = 1 then "0" ++ s else "00"

/-- formatDate from src/utils/format.ts: the DD/MM/YYYY rendering built from
the Date getters (getDate, getMonth plus 1, getFullYear). -/
def formatDate (date : SimpleDate) : String :=
  pad date.day ++ "/" ++ pad date.month ++ "/" ++ toString date.year

/-- The strict DD/MM/YYYY regular expression of formatDateForStorage: exactly
two digits, a slash, two digits, a slash and four digits, returning the three
numeric fields on a match. -/
def matchDDMMYYYY (s : String) : Option (Int × Int × Int) :=
  match s.data with
  | [d1, d2, s1, m1, m2, s2, y1, y2, y3, y4] =>
    if d1.isDigit && d2.isDigit && s1 = '/' && m1.isDigit && m2.isDigit && s2 = '/' &&
        y1.isDigit && y2.isDigit && y3.isDigit && y4.isDigit then
      some ((digitsVal [d1, d2] : Int), (digitsVal [m1, m2] : Int),
        (digitsVal [y1, y2, y3, y4] : Int))
    else none
  | _ => none

/-- Whether a proleptic Gregorian year is a leap year. -/
def isLeapYear (y : Int) : Bool :=
  Int.emod y 4 = 0 && (Int.emod y 100 ≠ 0 || Int.emod y 400 = 0)

/-- Number of days in a month of a given year. -/
def daysInMonth (y m : Int) : Int :=
  if m = 2 then (if isLeapYear y then 29 else 28)
  else if m = 4 ∨ m = 6 ∨ m = 9 ∨ m = 11 then 30
  else 31

/-- Partial model of generic JavaScript date-string parsing, the fallback
branch of formatDateForStorage for input that does not match the strict
DD/MM/YYYY pattern: the ISO YYYY-MM-DD calendar form is recognized and
validated (engines reject out-of-range ISO fields as an Invalid Date), and
every other string is treated as unparseable. The claims under scrutiny only
exercise the strict branch and the empty input. -/
def jsParseDateString (s : String) : Option SimpleDate :=
  match s.data with
  | [y1, y2, y3, y4, h1, m1, m2, h2, d1, d2] =>
    if y1.isDigit && y2.isDigit && y3.isDigit && y4.isDigit && h1 = '-' &&
        m1.isDigit && m2.isDigit && h2 = '-' && d1.isDigit && d2.isDigit then
      let y : Int := digitsVal [y1, y2, y3, y4]
      let m : Int := digitsVal [m1, m2]
      let d : Int := digitsVal [d1, d2]
      if 1 ≤ m ∧ m ≤ 12 ∧ 1 ≤ d ∧ d ≤ daysInMonth y m then some ⟨y, m, d⟩ else none
    else none
  | _ => none

/-- formatDateForStorage from src/utils/format.ts: absent or empty input falls
back to the current date; input matching the strict DD/MM/YYYY pattern is
rebuilt through new Date(year, month - 1, day), whose result for in-range
two-digit and four-digit fields always has a finite timestamp, so the
Number.isNaN guard never fires on that branch; other input goes through
generic date parsing with the current date as the final fallback. Output is
always produced by formatDate. -/
def formatDateForStorage (value : Option String) (now : SimpleDate) : String :=
  match value with
  | none => formatDate now
  | some v =>
    if v = "" then formatDate now
    else
      let trimmed := jsTrim v
      match matchDDMMYYYY trimmed with
      | some (dd, mm, yyyy) => formatDate (jsMakeDate yyyy (mm - 1) dd)
      | none =>
        match jsParseDateString trimmed with
        | some d => formatDate d
        | none => formatDate now


/-- A fee child row as stored in the frais relation. The referencing client id
is kept as a JavaScript number because the transfer path can write a
non-finite id (see archiveClient). -/
structure FeeRow where
  clientId : JsNum
  type : String
  montant : ℚ
deriving DecidableEq, Repr

/-- A phone child row as stored in the telephones relation. -/
structure PhoneRow where
  clientId : JsNum
  numero : String
deriving DecidableEq, Repr

/-- A client row as stored in the clients relation: auto-assigned id, unique
name, unique page, note, the two amounts, the add-date text and the 0/1
completion flag. -/
structure ClientRow where
  id : Int
  nom : String
  page : JsNum
  note : String
  montantTotal : ℚ
  montantRestant : ℚ
  dateAjout : String
  statut : Int
deriving DecidableEq, Repr

/-- A fee line item as the application passes it around (type plus amount). -/
structure Fee where
  type : String
  montant : ℚ
deriving DecidableEq, Repr

/-- A phone number as the application passes it around. -/
structure Phone where
  numero : String
deriving DecidableEq, Repr

/-- The scalar attributes plus child collections of a client, without an
identifier, as accepted by createClient and updateClient (ClientPayload in
src/hooks/useDatabase.ts). -/
structure ClientPayload where
  nom : String
  page : JsNum
  note : String
  montantTotal : ℚ
  montantRestant : ℚ
  dateAjout : String
  statut : Bool
  frais : List Fee
  telephones : List Phone
deriving DecidableEq, Repr

/-- A full client with identifier and hydrated child collections
(ClientWithRelations in src/types/index.ts). -/
structure ClientWithRelations where
  id : Int
  nom : String
  page : JsNum
  note : String
  montantTotal : ℚ
  montantRestant : ℚ
  dateAjout : String
  statut : Bool
  frais : List Fee
  telephones : List Phone
deriving DecidableEq, Repr

/-- The payload view of a hydrated client, as the transfer path feeds the
snapshot fields into the destination insert. -/
def payloadOf (c : ClientWithRelations) : ClientPayload :=
  ⟨c.nom, c.page, c.note, c.montantTotal, c.montantRestant, c.dateAjout, c.statut,
    c.frais, c.telephones⟩

/-- State of one embedded store (one SQLite database file after ensureSchema):
the three relations plus the next auto-increment id for the clients relation. -/
structure DB where
  clients : List ClientRow
  frais : List FeeRow
  telephones : List PhoneRow
  nextId : Int
deriving DecidableEq, Repr

/-- A store with empty relations, as a freshly created database file presents
itself after ensureSchema (SQLite auto-increment ids start at 1). -/
def emptyDB : DB := ⟨[], [], [], 1⟩

/-- The errors the embedded store operations can raise. -/
inductive DbError where
  | constraintViolation
  | invalidInsertResult
  | duplicateInDestination
deriving DecidableEq, Repr

/-- Whether a record with the given name or page already exists in the store.
This single predicate backs both the UNIQUE constraints of the clients
relation checked on insert and the duplicate pre-check query of
checkDuplicateInDb (SELECT id FROM clients WHERE nom = ? OR page = ?). -/
def hasDuplicate (db : DB) (nom : String) (page : JsNum) : Bool :=
  db.clients.any fun c => decide (c.nom = nom) || decide (c.page = page)

/-- Result of an INSERT statement as react-native-quick-sqlite reports it: the
insertId field may be absent when the driver response is malformed, which the
call sites coerce through Number (Number of undefined being NaN). -/
structure InsertResult where
  insertId : Option JsNum
deriving Repr

/-- Number coercion of the reported insertId: a missing field reads as
undefined and coerces to NaN; a present number passes through. -/
def jsNumOfInsertId : Option JsNum → JsNum
  | none => .nan
  | some n => n

/-- Effect of the INSERT INTO clients statement: the UNIQUE constraints on nom
and page reject a colliding row and leave the store untouched; otherwise the
row is appended with the next auto-increment id and the driver report of the
new id (modelled by the report parameter, an honest backend reporting the
assigned rowid) is returned. -/
def insertClientRow (report : Int → Option JsNum) (db : DB) (p : ClientPayload) :
    DB × Except DbError InsertResult :=
  if hasDuplicate db p.nom p.page then (db, .error .constraintViolation)
  else
    ({ clients := db.clients ++
        [⟨db.nextId, p.nom, p.page, p.note, p.montantTotal, p.montantRestant, p.dateAjout,
          if p.statut then 1 else 0⟩],
       frais := db.frais, telephones := db.telephones, nextId := db.nextId + 1 },
      .ok ⟨report db.nextId⟩)

/-- The honest driver behaviour: the insert result reports the assigned rowid. -/
def honestReport : Int → Option JsNum := fun i => some (.fin i)

/-- Whether a value bound to the client_id column satisfies the child-row
constraints of the schema (client_id INTEGER NOT NULL referencing clients(id),
with PRAGMA foreign_keys ON): SQLite has no NaN representation and binds a NaN
double as NULL, failing NOT NULL, and a non-referencing value (the infinities
included) fails the foreign key, so a child INSERT succeeds exactly when the
bound id equals the id of an existing record of the same store. -/
def referencesClient (db : DB) (clientId : JsNum) : Bool :=
  db.clients.any fun c => decide (JsNum.fin c.id = clientId)

/-- insertFees from src/hooks/useDatabase.ts: one INSERT INTO frais statement
per fee, each tagged with the given client id; each statement is subject to
the NOT NULL and foreign-key constraints on client_id, and the first failing
statement throws, aborting the loop with the rows inserted so far. -/
def insertFees (db : DB) (clientId : JsNum) : List Fee → DB × Except DbError Unit
  | [] => (db, .ok ())
  | fee :: rest =>
    if referencesClient db clientId then
      insertFees { db with frais := db.frais ++ [⟨clientId, fee.type, fee.montant⟩] }
        clientId rest
    else (db, .error .constraintViolation)

/-- insertPhones from src/hooks/useDatabase.ts: one INSERT INTO telephones
statement per phone number, under the same client_id constraints as
insertFees. -/
def insertPhones (db : DB) (clientId : JsNum) : List Phone → DB × Except DbError Unit
  | [] => (db, .ok ())
  | phone :: rest =>
    if referencesClient db clientId then
      insertPhones { db with telephones := db.telephones ++ [⟨clientId, phone.numero⟩] }
        clientId rest
    else (db, .error .constraintViolation)

/-- createClient from src/hooks/useDatabase.ts: insert the scalar row, coerce
the reported insertId through Number, raise Invalid Insert Result when it is
not finite (leaving the already-inserted scalar row behind, as the thrown
error does not undo the insert), and otherwise insert the fee and phone
children tagged with the new id, propagating any child constraint failure,
and return the id. -/
def createClient (report : Int → Option JsNum) (db : DB) (payload : ClientPayload) :
    DB × Except DbError JsNum :=
  match insertClientRow report db payload with
  | (db1, .error e) => (db1, .error e)
  | (db1, .ok res) =>
    let clientId := jsNumOfInsertId res.insertId
    if clientId.isFinite then
      match insertFees db1 clientId payload.frais with
      | (db2, .error e) => (db2, .error e)
      | (db2, .ok _) =>
        match insertPhones db2 clientId payload.telephones with
        | (db3, .error e) => (db3, .error e)
        | (db3, .ok _) => (db3, .ok clientId)
    else (db1, .error .invalidInsertResult)

/-- Replacement of both child collections, as updateClient performs it: DELETE
FROM frais WHERE client_id, reinsert the fees, DELETE FROM telephones WHERE
client_id, reinsert the phones, each reinsert subject to the client_id
constraints and propagating its failure. -/
def replaceChildren (db : DB) (clientId : JsNum) (fees : List Fee) (phones : List Phone) :
    DB × Except DbError Unit :=
  let db1 := { db with frais := db.frais.filter fun f => !decide (f.clientId = clientId) }
  match insertFees db1 clientId fees with
  | (db2, .error e) => (db2, .error e)
  | (db2, .ok _) =>
    let db3 :=
      { db2 with telephones := db2.telephones.filter fun t => !decide (t.clientId = clientId) }
    insertPhones db3 clientId phones

/-- updateClient from src/hooks/useDatabase.ts: a blind UPDATE of the scalar
columns for the given id (matching zero rows is not an error and is not
detected; a new name or page colliding with a different existing row violates
the UNIQUE constraints), followed by full delete-and-reinsert of both child
collections. -/
def updateClient (db : DB) (clientId : Int) (payload : ClientPayload) :
    DB × Except DbError Unit :=
  if db.clients.any fun c => decide (c.id = clientId) then
    if db.clients.any fun c =>
        !decide (c.id = clientId) &&
          (decide (c.nom = payload.nom) || decide (c.page = payload.page)) then
      (db, .error .constraintViolation)
    else
      let db1 := { db with clients := db.clients.map fun c =>
        if c.id = clientId then
          ⟨c.id, payload.nom, payload.page, payload.note, payload.montantTotal,
            payload.montantRestant, payload.dateAjout, if payload.statut then 1 else 0⟩
        else c }
      replaceChildren db1 (.fin clientId) payload.frais payload.telephones
  else
    replaceChildren db (.fin clientId) payload.frais payload.telephones

/-- deleteClient from src/hooks/useDatabase.ts: DELETE FROM clients WHERE id,
with the ON DELETE CASCADE clauses of the schema removing the fee and phone
rows referencing that id. -/
def deleteClient (db : DB) (clientId : Int) : DB :=
  { clients := db.clients.filter fun c => !decide (c.id = clientId),
    frais := db.frais.filter fun f => !decide (f.clientId = JsNum.fin clientId),
    telephones := db.telephones.filter fun t => !decide (t.clientId = JsNum.fin clientId),
    nextId := db.nextId }

/-- clearAllData from src/hooks/useDatabase.ts: DELETE FROM telephones, DELETE
FROM frais, DELETE FROM clients (child relations first). The auto-increment
sequence survives a plain DELETE. -/
def clearAllData (db : DB) : DB :=
  { clients := [], frais := [], telephones := [], nextId := db.nextId }

/-- checkDuplicateInDb from src/hooks/useDatabase.ts: the read-only existence
query on name or page used by the transfer path before writing. -/
def checkDuplicateInDb (db : DB) (client : ClientWithRelations) : Bool :=
  hasDuplicate db client.nom client.page

/-- Outcome of a cross-store transfer: the final state of both stores and the
raised error, when any. -/
structure TransferOutcome where
  source : DB
  dest : DB
  error : Option DbError
deriving DecidableEq, Repr

/-- archiveClient from src/hooks/useDatabase.ts (the cross-store transfer;
unarchiveClient is the same body with the two store files swapped): open the
destination and ensure its schema, fail with Duplicate In Destination when the
snapshot name or page already exists there, otherwise insert the scalar row
into the destination, coerce the reported insertId through Number with no
finiteness guard, insert the fee and phone children tagged with that
(possibly non-finite) id — a child statement failing its client_id
constraints throws, is caught and rethrown, and the source delete never runs
— and only after all destination inserts succeed delete the source record,
whose children cascade. -/
def archiveClient (report : Int → Option JsNum) (sourceDb destDb : DB) (clientId : Int)
    (clientData : ClientWithRelations) : TransferOutcome :=
  if checkDuplicateInDb destDb clientData then
    ⟨sourceDb, destDb, some .duplicateInDestination⟩
  else
    match insertClientRow report destDb (payloadOf clientData) with
    | (destDb1, .error e) => ⟨sourceDb, destDb1, some e⟩
    | (destDb1, .ok res) =>
      let newClientId := jsNumOfInsertId res.insertId
      match insertFees destDb1 newClientId clientData.frais with
      | (destDb2, .error e) => ⟨sourceDb, destDb2, some e⟩
      | (destDb2, .ok _) =>
        match insertPhones destDb2 newClientId clientData.telephones with
        | (destDb3, .error e) => ⟨sourceDb, destDb3, some e⟩
        | (destDb3, .ok _) => ⟨deleteClient sourceDb clientId, destDb3, none⟩

/-- unarchiveClient from src/hooks/useDatabase.ts: identical to archiveClient
at the state level, with the main store as destination and the archive store
as source. -/
def unarchiveClient : (Int → Option JsNum) → DB → DB → Int → ClientWithRelations →
    TransferOutcome :=
  archiveClient

/-- The name computed for an import candidate: normalizeString of the nom
field, trimmed (src/hooks/useClientData.ts line 201). -/
def candidateNom (raw : JsValue) : String :=
  jsTrim (normalizeString (getField raw "nom"))

/-- The page computed for an import candidate: Number of the page field
(src/hooks/useClientData.ts line 202). -/
def candidatePage (raw : JsValue) : JsNum :=
  jsNumberOf (getField raw "page")

/-- Rendering of a JavaScript number as SQLite receives it in a TEXT column;
only reachable for the degenerate case of a truthy non-string dateAjout
field, which the claims never exercise. -/
def jsNumToText : JsNum → String
  | .nan => "NaN"
  | .posInf => "Infinity"
  | .negInf => "-Infinity"
  | .fin q => toString q.num ++ (if q.den = 1 then "" else "/" ++ toString q.den)

/-- Text under which a truthy JavaScript value reaches a TEXT column; import
candidates carry strings here, the other cases are defensive. -/
def dbText : JsValue → String
  | .str s => s
  | .num n => jsNumToText n
  | .bool b => if b then "true" else "false"
  | _ => ""

/-- The stored add-date of an import candidate: the dateAjout field when
truthy, else the formatted current date (src/hooks/useClientData.ts line 214:
rawClient.dateAjout or the formatDate fallback). The dateAdded field is not
consulted. -/
def candidateDateAjout (raw : JsValue) (now : SimpleDate) : String :=
  let v := getField raw "dateAjout"
  if truthy v then dbText v else formatDate now

/-- The phone list of an import candidate: string entries trimmed, non-strings
replaced by the empty string, empty results dropped
(src/hooks/useClientData.ts lines 216 to 220). -/
def candidatePhones (raw : JsValue) : List Phone :=
  match getField raw "telephones" with
  | .arr xs =>
    ((xs.map fun v => match v with | .str s => jsTrim s | _ => "").filter
      fun s => s.length > 0).map Phone.mk
  | _ => []

/-- The fee list of an import candidate: each entry reduced to a trimmed type
and a normalized amount, entries with an empty type dropped individually
(src/hooks/useClientData.ts lines 222 to 229). -/
def candidateFees (raw : JsValue) : List Fee :=
  match getField raw "frais" with
  | .arr xs =>
    (xs.map fun f => Fee.mk (jsTrim (normalizeString (getField f "type")))
      (normalizeAmount (getField f "montant"))).filter fun f => f.type.length > 0
  | _ => []

/-- The full payload the import loop hands to createClient for one candidate
(src/hooks/useClientData.ts lines 209 to 245). -/
def payloadOfCandidate (raw : JsValue) (now : SimpleDate) : ClientPayload :=
  { nom := candidateNom raw,
    page := candidatePage raw,
    note := jsTrim (normalizeString (getField raw "note")),
    montantTotal := normalizeAmount (getField raw "montantTotal"),
    montantRestant := normalizeAmount (getField raw "montantRestant"),
    dateAjout := candidateDateAjout raw now,
    statut := normalizeStatus (getField raw "statut"),
    frais := candidateFees raw,
    telephones := candidatePhones raw }

/-- The per-candidate import loop of handleImportPress
(src/hooks/useClientData.ts lines 200 to 251): a candidate with an empty
computed name or a NaN page increments the skipped count and processing
continues; otherwise createClient is attempted, success increments the
imported count, and a thrown creation error is caught, increments the skipped
count, and processing continues with whatever state the failed creation left. -/
def importClientsLoop (report : Int → Option JsNum) (now : SimpleDate) :
    List JsValue → DB → Nat → Nat → DB × Nat × Nat
  | [], db, importedCount, skippedCount => (db, importedCount, skippedCount)
  | raw :: rest, db, importedCount, skippedCount =>
    if candidateNom raw = "" || (candidatePage raw).isNaN then
      importClientsLoop report now rest db importedCount (skippedCount + 1)
    else
      match createClient report db (payloadOfCandidate raw now) with
      | (db1, .ok _) => importClientsLoop report now rest db1 (importedCount + 1) skippedCount
      | (db1, .error _) => importClientsLoop report now rest db1 importedCount (skippedCount + 1)

/-- How a run of handleImportPress ended. -/
inductive ImportEnd where
  | invalidJson
  | noCandidates
  | cancelled
  | completed
deriving DecidableEq, Repr

/-- Observable outcome of one handleImportPress run: the final store state,
whether the destructive clearAllData was invoked, the two counts, and how the
run ended. -/
structure ImportOutcome where
  db : DB
  clearRan : Bool
  importedCount : Nat
  skippedCount : Nat
  ended : ImportEnd
deriving DecidableEq, Repr

/-- handleImportPress from src/hooks/useClientData.ts, from the point where
the file text has been read: JSON.parse failure (parsed = none) aborts with an
alert before anything else; an empty candidate list from normalizeParsedInput
aborts next; the user confirmation gate aborts next; only then clearAllData
runs, followed by the per-candidate import loop. -/
def handleImportPress (report : Int → Option JsNum) (now : SimpleDate)
    (parsed : Option JsValue) (userConfirmed : Bool) (db : DB) : ImportOutcome :=
  match parsed with
  | none => ⟨db, false, 0, 0, .invalidJson⟩
  | some p =>
    let normalizedClients := normalizeParsedInput p
    if normalizedClients.length = 0 then ⟨db, false, 0, 0, .noCandidates⟩
    else if !userConfirmed then ⟨db, false, 0, 0, .cancelled⟩
    else
      let db1 := clearAllData db
      let result := importClientsLoop report now normalizedClients db1 0 0
      ⟨result.1, true, result.2.1, result.2.2, .completed⟩

/-- Membership characterization of the word cascade in normalizeStatus: the
folded string is accepted exactly when it belongs to the accepted-true list. -/
theorem statusFromAscii_eq_mem (a : String) :
    statusFromAscii a = decide (a ∈ acceptedTrue) := by
  unfold statusFromAscii
  split_ifs with h1 h2 h3
  · rcases h1 with h | h | h <;> rw [h] <;> decide
  · rcases h2 with h | h | h <;> rw [h] <;> decide
  · rcases h3 with h | h | h | h | h | h | h | h <;> rw [h] <;> decide
  · symm
    rw [decide_eq_false_iff_not]
    simp only [acceptedTrue, List.mem_cons, List.not_mem_nil, or_false]
    push_neg at h1 h3
    tauto

/-- C6: normalizeStatus returns boolean input unchanged; numeric input yields
the comparison with 1; string input is trimmed, lowercased, stripped of the
combining marks U+0300 to U+036F after decomposition, and accepted exactly
when the folded string lies in the accepted-true word set, with everything
else (the accepted-false words and unrecognized strings included) yielding
false; any other input type yields false; and the quoted examples evaluate as
the claim states. -/
theorem claim6_normalizeStatus_contract :
    (∀ b, normalizeStatus (.bool b) = b) ∧
    (∀ n, normalizeStatus (.num n) = decide (n = JsNum.fin 1)) ∧
    (∀ s, normalizeStatus (.str s) = decide (asciiFold s ∈ acceptedTrue)) ∧
    normalizeStatus (.str "Terminée") = true ∧
    normalizeStatus (.str "EN COURS") = false ∧
    normalizeStatus (.num (.fin 1)) = true ∧
    normalizeStatus (.num (.fin 0)) = false ∧
    normalizeStatus (.str "") = false ∧
    normalizeStatus .null = false ∧
    normalizeStatus .undefined = false ∧
    (∀ xs, normalizeStatus (.arr xs) = false) ∧
    (∀ fs, normalizeStatus (.obj fs) = false) :=
  ⟨fun _ => rfl, fun _ => rfl, fun s => statusFromAscii_eq_mem (asciiFold s),
   by decide, by decide, by decide, by decide, by decide, rfl, rfl,
   fun _ => rfl, fun _ => rfl⟩

/-- C7: wrapping two truthy candidate objects under the clients key, under the
data key, or passing them as a bare array yields the same candidate sequence;
a non-null object with none of the recognized container keys becomes the
single candidate itself; null and primitive inputs yield no candidates. -/
theorem claim7_shape_resolver_equivalence :
    (∀ a b, truthy a = true → truthy b = true →
      normalizeParsedInput (.obj [("clients", .arr [a, b])]) = [a, b] ∧
      normalizeParsedInput (.obj [("data", .arr [a, b])]) = [a, b] ∧
      normalizeParsedInput (.arr [a, b]) = [a, b]) ∧
    (∀ fields, getField (.obj fields) "data" = .undefined →
      getField (.obj fields) "results" = .undefined →
      getField (.obj fields) "clientes" = .undefined →
      getField (.obj fields) "clients" = .undefined →
      normalizeParsedInput (.obj fields) = [.obj fields]) ∧
    normalizeParsedInput .null = [] ∧
    normalizeParsedInput .undefined = [] ∧
    (∀ n, normalizeParsedInput (.num n) = []) ∧
    (∀ s, normalizeParsedInput (.str s) = []) ∧
    (∀ b, normalizeParsedInput (.bool b) = []) := by
  refine ⟨?_, ?_, rfl, rfl, fun _ => rfl, fun _ => rfl, fun _ => rfl⟩
  · intro a b ha hb
    refine ⟨?_, ?_, ?_⟩ <;>
      simp [normalizeParsedInput, getField, ensureArray, List.filter, List.lookup, ha, hb]
  · intro fields hdata hresults hclientes hclients
    simp only [normalizeParsedInput]
    rw [hdata, hresults, hclientes, hclients]
    simp [ensureArray]

/-- C7 witness: the three shapes around two concrete candidate objects all
resolve to the same two-candidate sequence, and a recognized-key-free object
resolves to itself. -/
theorem claim7_witness :
    (normalizeParsedInput (.obj [("clients", .arr [.obj [("nom", .str "A")],
        .obj [("nom", .str "B")]])]) = [.obj [("nom", .str "A")], .obj [("nom", .str "B")]] ∧
      normalizeParsedInput (.obj [("data", .arr [.obj [("nom", .str "A")],
        .obj [("nom", .str "B")]])]) = [.obj [("nom", .str "A")], .obj [("nom", .str "B")]] ∧
      normalizeParsedInput (.arr [.obj [("nom", .str "A")], .obj [("nom", .str "B")]]) =
        [.obj [("nom", .str "A")], .obj [("nom", .str "B")]]) ∧
    normalizeParsedInput (.obj [("nom", .str "Amel")]) = [.obj [("nom", .str "Amel")]] :=
  ⟨claim7_shape_resolver_equivalence.1 (.obj [("nom", .str "A")]) (.obj [("nom", .str "B")])
      rfl rfl,
   claim7_shape_resolver_equivalence.2.1 [("nom", .str "Amel")] rfl rfl rfl rfl⟩

/-- C4 counterexample: on the invalid calendar date 31/02/2024 the storage
formatter returns the rolled-over date 02/03/2024, not the current date, so
the claimed fallback to today does not happen. -/
theorem claim4_counterexample :
    formatDateForStorage (some "31/02/2024") ⟨2024, 1, 15⟩ = "02/03/2024" ∧
    formatDate ⟨2024, 1, 15⟩ = "15/01/2024" ∧
    ("02/03/2024" : String) ≠ "15/01/2024" :=
  ⟨by decide, by decide, by decide⟩

/-- C4 amended: empty or absent input yields the formatted current date; input
matching the strict DD/MM/YYYY pattern is rebuilt through the rolling Date
constructor, so the invalid calendar date 31/02/2024 yields the rolled-over
date 02/03/2024 (for every current date, hence not the today fallback); and
the output always is the canonical formatDate rendering of some date. -/
theorem claim4_amended_date_storage :
    (∀ now, formatDateForStorage none now = formatDate now) ∧
    (∀ now, formatDateForStorage (some "") now = formatDate now) ∧
    (∀ now, formatDateForStorage (some "31/02/2024") now =
      formatDate (jsMakeDate 2024 1 31)) ∧
    (∀ now, formatDateForStorage (some "31/02/2024") now = "02/03/2024") ∧
    (∀ v now, ∃ d, formatDateForStorage (some v) now = formatDate d) := by
  refine ⟨fun _ => rfl, fun _ => rfl, fun _ => rfl,
    by intro now; show formatDate (jsMakeDate 2024 1 31) = "02/03/2024"; decide, ?_⟩
  intro v now
  by_cases hv : v = ""
  · exact ⟨now, by simp [formatDateForStorage, hv]⟩
  · simp only [formatDateForStorage, hv, if_false]
    rcases hm : matchDDMMYYYY (jsTrim v) with _ | ⟨dd, mm, yyyy⟩
    · rcases hp : jsParseDateString (jsTrim v) with _ | d
      · exact ⟨now, by simp [hm, hp]⟩
      · exact ⟨d, by simp [hm, hp]⟩
    · exact ⟨jsMakeDate yyyy (mm - 1) dd, by simp [hm]⟩

/-- C5: a create whose name or page equals that of a record already present in
the same store fails with the UNIQUE constraint violation and leaves the
store, in particular its record count, unchanged. -/
theorem claim5_create_uniqueness :
    ∀ (report : Int → Option JsNum) (db : DB) (payload : ClientPayload) (c : ClientRow),
      c ∈ db.clients → (c.nom = payload.nom ∨ c.page = payload.page) →
      createClient report db payload = (db, .error .constraintViolation) ∧
      (createClient report db payload).1.clients.length = db.clients.length := by
  intro report db payload c hc hcol
  have hdup : hasDuplicate db payload.nom payload.page = true := by
    simp only [hasDuplicate, List.any_eq_true]
    refine ⟨c, hc, ?_⟩
    rcases hcol with h | h <;> simp [h]
  have : createClient report db payload = (db, .error .constraintViolation) := by
    simp [createClient, insertClientRow, hdup]
  exact ⟨this, by rw [this]⟩

/-- The store used by the C5 witness: one record named Amel on page 3. -/
def dbClaim5 : DB := ⟨[⟨1, "Amel", .fin 3, "", 0, 0, "01/01/2024", 0⟩], [], [], 2⟩

/-- The colliding payload of the C5 witness: same name, different page. -/
def payloadClaim5 : ClientPayload :=
  ⟨"Amel", .fin 7, "", 0, 0, "02/01/2024", false, [], []⟩

/-- C5 witness: creating a second Amel in the concrete store fails with the
constraint violation and the store is unchanged. -/
theorem claim5_create_uniqueness_witness :
    createClient honestReport dbClaim5 payloadClaim5 =
      (dbClaim5, .error .constraintViolation) ∧
    (createClient honestReport dbClaim5 payloadClaim5).1.clients.length =
      dbClaim5.clients.length :=
  claim5_create_uniqueness honestReport dbClaim5 payloadClaim5
    ⟨1, "Amel", .fin 3, "", 0, 0, "01/01/2024", 0⟩
    (by simp [dbClaim5]) (Or.inl rfl)

/-- The store used by the C8 counterexample: one record with identifier 1. -/
def dbClaim8 : DB := ⟨[⟨1, "Amel", .fin 3, "", 0, 0, "01/01/2024", 0⟩], [], [], 2⟩

/-- A payload with no child rows, used against the absent identifier 5. -/
def payloadClaim8 : ClientPayload :=
  ⟨"Nora", .fin 7, "", 0, 0, "02/01/2024", false, [], []⟩

/-- C8 counterexample: updating the absent identifier 5 resolves successfully
and leaves the store unchanged; no Not Found failure is raised, contrary to
the claim that the missing identifier is surfaced. -/
theorem claim8_counterexample :
    updateClient dbClaim8 5 payloadClaim8 = (dbClaim8, .ok ()) := rfl

/-- C8 amended: for an identifier absent from the store (and, as foreign-key
integrity guarantees, not referenced by any child row), an update whose
payload carries no child rows resolves successfully with the store unchanged,
a silent no-op; the code never raises a Not Found error for the missing
identifier. -/
theorem claim8_amended_update_missing_id :
    ∀ (db : DB) (clientId : Int) (payload : ClientPayload),
      (∀ c ∈ db.clients, c.id ≠ clientId) →
      (∀ f ∈ db.frais, f.clientId ≠ JsNum.fin clientId) →
      (∀ t ∈ db.telephones, t.clientId ≠ JsNum.fin clientId) →
      payload.frais = [] → payload.telephones = [] →
      updateClient db clientId payload = (db, .ok ()) := by
  intro db clientId payload hc hf ht hfees hphones
  have hany : (db.clients.any fun c => decide (c.id = clientId)) = false := by
    simp only [List.any_eq_false, decide_eq_true_eq]
    exact hc
  have hfrais : (db.frais.filter fun f => !decide (f.clientId = JsNum.fin clientId)) =
      db.frais :=
    List.filter_eq_self.mpr (by intro f hmem; simpa using hf f hmem)
  have htel : (db.telephones.filter fun t => !decide (t.clientId = JsNum.fin clientId)) =
      db.telephones :=
    List.filter_eq_self.mpr (by intro t hmem; simpa using ht t hmem)
  simp [updateClient, hany, replaceChildren, insertFees, insertPhones,
    hfrais, htel, hfees, hphones]

/-- C8 amended witness: the concrete silent no-op, obtained from the amended
theorem at the concrete store and payload. -/
theorem claim8_amended_witness :
    updateClient dbClaim8 5 payloadClaim8 = (dbClaim8, .ok ()) ∧ dbClaim8.clients.length = 1 :=
  ⟨claim8_amended_update_missing_id dbClaim8 5 payloadClaim8
    (by intro c hc; simp [dbClaim8] at hc; simp [hc])
    (by intro f hf; simp [dbClaim8] at hf)
    (by intro t ht; simp [dbClaim8] at ht)
    rfl rfl, rfl⟩

/-- C1: when the destination store already holds a record with the snapshot
name or page, the transfer fails with Duplicate In Destination and both stores
are untouched; whenever the transfer ends in any error, the source store is
fully unchanged (record count, the record itself and its fee and phone
children); the source record is removed exactly when no error occurred, that
is, only after the destination insert succeeded; and unarchiveClient is the
same state transformer as archiveClient. -/
theorem claim1_transfer_safety :
    ∀ (report : Int → Option JsNum) (src dst : DB) (clientId : Int)
      (data : ClientWithRelations),
      (checkDuplicateInDb dst data = true →
        archiveClient report src dst clientId data =
          ⟨src, dst, some .duplicateInDestination⟩) ∧
      (∀ e, (archiveClient report src dst clientId data).error = some e →
        (archiveClient report src dst clientId data).source = src) ∧
      ((archiveClient report src dst clientId data).error = none →
        (archiveClient report src dst clientId data).source = deleteClient src clientId) ∧
      unarchiveClient report src dst clientId data = archiveClient report src dst clientId data := by
  intro report src dst clientId data
  refine ⟨?_, ?_, ?_, rfl⟩
  · intro h
    simp [archiveClient, h]
  · intro e
    unfold archiveClient
    split
    · intro _; rfl
    · split
      · intro _; rfl
      · dsimp only
        split
        · intro _; rfl
        · split
          · intro _; rfl
          · intro hcontra; simp at hcontra
  · unfold archiveClient
    split
    · intro hcontra; simp at hcontra
    · split
      · intro hcontra; simp at hcontra
      · dsimp only
        split
        · intro hcontra; simp at hcontra
        · split
          · intro hcontra; simp at hcontra
          · intro _; rfl

/-- The destination store of the C1 witness, already holding a record named
Amel. -/
def dstClaim1 : DB := ⟨[⟨1, "Amel", .fin 3, "", 0, 0, "01/01/2024", 0⟩], [], [], 2⟩

/-- The source store of the C1 witness, holding the record to transfer with a
fee and a phone child. -/
def srcClaim1 : DB :=
  ⟨[⟨4, "Amel", .fin 9, "note", 100, 40, "05/01/2024", 1⟩],
    [⟨.fin 4, "livraison", 5⟩], [⟨.fin 4, "0551234567"⟩], 5⟩

/-- The transferred snapshot of the C1 witness, colliding with the destination
by name. -/
def dataClaim1 : ClientWithRelations :=
  ⟨4, "Amel", .fin 9, "note", 100, 40, "05/01/2024", true,
    [⟨"livraison", 5⟩], [⟨"0551234567"⟩]⟩

/-- C1 witness: transferring the concrete snapshot into a destination already
holding the name Amel fails with Duplicate In Destination and both stores,
the source record and its children included, are unchanged. -/
theorem claim1_transfer_safety_witness :
    archiveClient honestReport srcClaim1 dstClaim1 4 dataClaim1 =
      ⟨srcClaim1, dstClaim1, some .duplicateInDestination⟩ ∧
    (archiveClient honestReport srcClaim1 dstClaim1 4 dataClaim1).source = srcClaim1 :=
  ⟨(claim1_transfer_safety honestReport srcClaim1 dstClaim1 4 dataClaim1).1 (by decide),
   (claim1_transfer_safety honestReport srcClaim1 dstClaim1 4 dataClaim1).2.1
     .duplicateInDestination
     (by rw [(claim1_transfer_safety honestReport srcClaim1 dstClaim1 4 dataClaim1).1
       (by decide)])⟩

/-- The INSERT INTO clients statement fails only through its UNIQUE
constraints: every error it produces is a constraint violation. -/
theorem insertClientRow_error (report : Int → Option JsNum) (db : DB) (p : ClientPayload)
    (db1 : DB) (e : DbError) (h : insertClientRow report db p = (db1, .error e)) :
    e = .constraintViolation := by
  unfold insertClientRow at h
  split at h
  · simp only [Prod.mk.injEq, Except.error.injEq] at h
    exact h.2.symm
  · simp at h

/-- The fee-insert loop fails only through the client_id constraints: every
error it produces is a constraint violation. -/
theorem insertFees_error (clientId : JsNum) :
    ∀ (fees : List Fee) (db db2 : DB) (e : DbError),
      insertFees db clientId fees = (db2, .error e) → e = .constraintViolation := by
  intro fees
  induction fees with
  | nil => intro db db2 e h; simp [insertFees] at h
  | cons fee rest ih =>
    intro db db2 e h
    rw [insertFees] at h
    split at h
    · exact ih _ _ _ h
    · simp only [Prod.mk.injEq, Except.error.injEq] at h
      exact h.2.symm

/-- The phone-insert loop fails only through the client_id constraints: every
error it produces is a constraint violation. -/
theorem insertPhones_error (clientId : JsNum) :
    ∀ (phones : List Phone) (db db2 : DB) (e : DbError),
      insertPhones db clientId phones = (db2, .error e) → e = .constraintViolation := by
  intro phones
  induction phones with
  | nil => intro db db2 e h; simp [insertPhones] at h
  | cons phone rest ih =>
    intro db db2 e h
    rw [insertPhones] at h
    split at h
    · exact ih _ _ _ h
    · simp only [Prod.mk.injEq, Except.error.injEq] at h
      exact h.2.symm

/-- A non-finite client id (NaN or an infinity) never references an existing
record, so every child INSERT bound to it fails its constraints. -/
theorem referencesClient_nonfinite (db : DB) (clientId : JsNum)
    (h : clientId.isFinite = false) : referencesClient db clientId = false := by
  unfold referencesClient
  rw [List.any_eq_false]
  intro c _
  simp only [decide_eq_true_eq]
  intro hc
  rw [← hc] at h
  simp [JsNum.isFinite] at h

/-- The transfer path ends without error, with the duplicate pre-check error,
or with a constraint violation from one of its INSERT statements; the Invalid
Insert Result guard of createClient has no counterpart in it. -/
theorem archiveClient_error_cases (report : Int → Option JsNum) (src dst : DB)
    (clientId : Int) (data : ClientWithRelations) :
    (archiveClient report src dst clientId data).error = none ∨
    (archiveClient report src dst clientId data).error = some .duplicateInDestination ∨
    (archiveClient report src dst clientId data).error = some .constraintViolation := by
  unfold archiveClient
  split
  · exact Or.inr (Or.inl rfl)
  · split
    · next db1 e heq =>
      exact Or.inr (Or.inr (congrArg some (insertClientRow_error _ _ _ _ _ heq)))
    · dsimp only
      split
      · next db2 e heq =>
        exact Or.inr (Or.inr (congrArg some (insertFees_error _ _ _ _ _ heq)))
      · split
        · next db3 e heq =>
          exact Or.inr (Or.inr (congrArg some (insertPhones_error _ _ _ _ _ heq)))
        · exact Or.inl rfl

/-- The duplicate-free destination of the C10 scenarios. -/
def dstClaim10 : DB := ⟨[], [], [], 1⟩

/-- The source store of the C10 scenarios, holding the record to transfer. -/
def srcClaim10 : DB :=
  ⟨[⟨2, "Lina", .fin 5, "", 80, 20, "06/01/2024", 0⟩],
    [⟨.fin 2, "emballage", 3⟩], [⟨.fin 2, "0662223344"⟩], 3⟩

/-- A transferred snapshot with one fee and one phone child. -/
def dataClaim10 : ClientWithRelations :=
  ⟨2, "Lina", .fin 5, "", 80, 20, "06/01/2024", false,
    [⟨"emballage", 3⟩], [⟨"0662223344"⟩]⟩

/-- The same snapshot with no child rows. -/
def dataClaim10NoChildren : ClientWithRelations :=
  ⟨2, "Lina", .fin 5, "", 80, 20, "06/01/2024", false, [], []⟩

/-- C10 counterexample: with a backend reporting no insertId, transferring a
snapshot that carries a fee and a phone does not insert the children and does
not delete the source record: SQLite binds the NaN client id as NULL, the
first child INSERT fails its NOT NULL constraint, the error is rethrown, the
source store is unchanged and the destination holds only the scalar row. -/
theorem claim10_counterexample :
    archiveClient (fun _ => none) srcClaim10 dstClaim10 2 dataClaim10 =
      ⟨srcClaim10,
        ⟨[⟨1, "Lina", .fin 5, "", 80, 20, "06/01/2024", 0⟩], [], [], 2⟩,
        some .constraintViolation⟩ ∧
    (archiveClient (fun _ => none) srcClaim10 dstClaim10 2 dataClaim10).source = srcClaim10 ∧
    (archiveClient (fun _ => none) srcClaim10 dstClaim10 2 dataClaim10).dest.frais = [] ∧
    (archiveClient (fun _ => none) srcClaim10 dstClaim10 2 dataClaim10).error ≠ none :=
  ⟨rfl, rfl, rfl, by decide⟩

/-- C10 amended: the transfer path coerces the reported insertId through
Number with no finiteness guard, so it can never raise the distinct Invalid
Insert Result error of createClient; for a backend response lacking a usable
finite identifier on a duplicate-free transfer, the destination scalar insert
still succeeds and then: a snapshot without child rows completes the transfer
and the source record is still deleted, while a snapshot with any fee or
phone child fails its first child INSERT on the client_id constraints (SQLite
binds the non-finite id as NULL or a non-referencing value), the error
propagates as a constraint violation, no child row is inserted, and the
source record is not deleted. -/
theorem claim10_amended_transfer_insertid :
    (∀ (report : Int → Option JsNum) (src dst : DB) (clientId : Int)
      (data : ClientWithRelations),
      (archiveClient report src dst clientId data).error ≠ some .invalidInsertResult) ∧
    (∀ (report : Int → Option JsNum) (src dst : DB) (clientId : Int)
      (data : ClientWithRelations),
      hasDuplicate dst data.nom data.page = false →
      (jsNumOfInsertId (report dst.nextId)).isFinite = false →
      data.frais = [] → data.telephones = [] →
      archiveClient report src dst clientId data =
        ⟨deleteClient src clientId,
          { clients := dst.clients ++ [⟨dst.nextId, data.nom, data.page, data.note,
              data.montantTotal, data.montantRestant, data.dateAjout,
              if data.statut then 1 else 0⟩],
            frais := dst.frais, telephones := dst.telephones, nextId := dst.nextId + 1 },
          none⟩) ∧
    (∀ (report : Int → Option JsNum) (src dst : DB) (clientId : Int)
      (data : ClientWithRelations) (fee : Fee) (fs : List Fee),
      hasDuplicate dst data.nom data.page = false →
      (jsNumOfInsertId (report dst.nextId)).isFinite = false →
      data.frais = fee :: fs →
      (archiveClient report src dst clientId data).error = some .constraintViolation ∧
      (archiveClient report src dst clientId data).source = src ∧
      (archiveClient report src dst clientId data).dest.frais = dst.frais ∧
      (archiveClient report src dst clientId data).dest.telephones = dst.telephones) ∧
    (∀ (report : Int → Option JsNum) (src dst : DB) (clientId : Int)
      (data : ClientWithRelations) (phone : Phone) (ps : List Phone),
      hasDuplicate dst data.nom data.page = false →
      (jsNumOfInsertId (report dst.nextId)).isFinite = false →
      data.frais = [] → data.telephones = phone :: ps →
      (archiveClient report src dst clientId data).error = some .constraintViolation ∧
      (archiveClient report src dst clientId data).source = src ∧
      (archiveClient report src dst clientId data).dest.frais = dst.frais ∧
      (archiveClient report src dst clientId data).dest.telephones = dst.telephones) := by
  refine ⟨?_, ?_, ?_, ?_⟩
  · intro report src dst clientId data hcontra
    rcases archiveClient_error_cases report src dst clientId data with h | h | h <;>
      rw [hcontra] at h <;> simp at h
  · intro report src dst clientId data hdup _hnf hfees hphones
    have hcheck : checkDuplicateInDb dst data = false := hdup
    simp [archiveClient, hcheck, insertClientRow, checkDuplicateInDb, payloadOf, hdup,
      hfees, hphones, insertFees, insertPhones]
  · intro report src dst clientId data fee fs hdup hnf hfees
    have hcheck : checkDuplicateInDb dst data = false := hdup
    have href : ∀ d : DB, referencesClient d (jsNumOfInsertId (report dst.nextId)) = false :=
      fun d => referencesClient_nonfinite d _ hnf
    simp [archiveClient, hcheck, insertClientRow, checkDuplicateInDb, payloadOf, hdup,
      hfees, insertFees, href]
  · intro report src dst clientId data phone ps hdup hnf hfees hphones
    have hcheck : checkDuplicateInDb dst data = false := hdup
    have href : ∀ d : DB, referencesClient d (jsNumOfInsertId (report dst.nextId)) = false :=
      fun d => referencesClient_nonfinite d _ hnf
    simp [archiveClient, hcheck, insertClientRow, checkDuplicateInDb, payloadOf, hdup,
      hfees, hphones, insertFees, insertPhones, href]

/-- C10 amended witness: with a backend reporting no insertId, the concrete
childless transfer completes with the source record deleted, while the
concrete snapshot with a fee child ends in a constraint violation with the
source store unchanged and no child row inserted. -/
theorem claim10_amended_transfer_insertid_witness :
    archiveClient (fun _ => none) srcClaim10 dstClaim10 2 dataClaim10NoChildren =
      ⟨deleteClient srcClaim10 2,
        { clients := [⟨1, "Lina", .fin 5, "", 80, 20, "06/01/2024", 0⟩],
          frais := [], telephones := [], nextId := 2 },
        none⟩ ∧
    (archiveClient (fun _ => none) srcClaim10 dstClaim10 2 dataClaim10).error =
      some .constraintViolation ∧
    (archiveClient (fun _ => none) srcClaim10 dstClaim10 2 dataClaim10).source = srcClaim10 :=
  ⟨claim10_amended_transfer_insertid.2.1 (fun _ => none) srcClaim10 dstClaim10 2
     dataClaim10NoChildren (by decide) (by decide) rfl rfl,
   (claim10_amended_transfer_insertid.2.2.1 (fun _ => none) srcClaim10 dstClaim10 2
     dataClaim10 ⟨"emballage", 3⟩ [] (by decide) (by decide) rfl).1,
   (claim10_amended_transfer_insertid.2.2.1 (fun _ => none) srcClaim10 dstClaim10 2
     dataClaim10 ⟨"emballage", 3⟩ [] (by decide) (by decide) rfl).2.1⟩

/-- Every candidate handed to the import loop is accounted for: the final
imported and skipped counts always sum to the initial counts plus the number
of candidates, so no candidate aborts the batch. -/
theorem importClientsLoop_counts (report : Int → Option JsNum) (now : SimpleDate) :
    ∀ (raws : List JsValue) (db : DB) (importedCount skippedCount : Nat),
      (importClientsLoop report now raws db importedCount skippedCount).2.1 +
        (importClientsLoop report now raws db importedCount skippedCount).2.2 =
      importedCount + skippedCount + raws.length := by
  intro raws
  induction raws with
  | nil => intro db i s; simp [importClientsLoop]
  | cons raw rest ih =>
    intro db i s
    rw [importClientsLoop]
    by_cases h : (decide (candidateNom raw = "") || (candidatePage raw).isNaN) = true
    · simp only [h, if_true, ih, List.length_cons]
      omega
    · rw [Bool.not_eq_true] at h
      simp only [h, Bool.false_eq_true, if_false]
      rcases hcc : createClient report db (payloadOfCandidate raw now) with ⟨db1, r⟩
      cases r with
      | ok v => simp only [ih, List.length_cons]; omega
      | error e => simp only [ih, List.length_cons]; omega

/-- The current date used by the concrete import scenarios. -/
def nowImport : SimpleDate := ⟨2026, 10, 11⟩

/-- First valid candidate of the C2 scenario. -/
def candAlice : JsValue := .obj [("nom", .str "Alice"), ("page", .num (.fin 1))]

/-- The invalid candidate of the C2 scenario: its name is empty. -/
def candEmptyName : JsValue := .obj [("nom", .str ""), ("page", .num (.fin 2))]

/-- Second valid candidate of the C2 scenario. -/
def candClara : JsValue := .obj [("nom", .str "Clara"), ("page", .num (.fin 3))]

/-- C2: the import loop processes candidates independently: a candidate whose
normalized trimmed name is empty or whose page coerces to NaN is skipped and
the loop continues on an unchanged store; a candidate whose creation throws
is caught, skipped, and the loop continues; every candidate is accounted for
in the two counts; and on the concrete array of three candidates whose second
has an empty name the loop reports two imported, one skipped, and the store
holds exactly the two valid records. -/
theorem claim2_import_per_candidate :
    (∀ (report : Int → Option JsNum) (now : SimpleDate) (raws : List JsValue) (db : DB),
      (importClientsLoop report now raws db 0 0).2.1 +
        (importClientsLoop report now raws db 0 0).2.2 = raws.length) ∧
    (∀ (report : Int → Option JsNum) (now : SimpleDate) (raw : JsValue)
      (rest : List JsValue) (db : DB) (importedCount skippedCount : Nat),
      (decide (candidateNom raw = "") || (candidatePage raw).isNaN) = true →
      importClientsLoop report now (raw :: rest) db importedCount skippedCount =
        importClientsLoop report now rest db importedCount (skippedCount + 1)) ∧
    (∀ (report : Int → Option JsNum) (now : SimpleDate) (raw : JsValue)
      (rest : List JsValue) (db db1 : DB) (importedCount skippedCount : Nat) (e : DbError),
      (decide (candidateNom raw = "") || (candidatePage raw).isNaN) = false →
      createClient report db (payloadOfCandidate raw now) = (db1, .error e) →
      importClientsLoop report now (raw :: rest) db importedCount skippedCount =
        importClientsLoop report now rest db1 importedCount (skippedCount + 1)) ∧
    importClientsLoop honestReport nowImport [candAlice, candEmptyName, candClara]
        emptyDB 0 0 =
      (⟨[⟨1, "Alice", .fin 1, "", 0, 0, "11/10/2026", 0⟩,
          ⟨2, "Clara", .fin 3, "", 0, 0, "11/10/2026", 0⟩], [], [], 3⟩, 2, 1) := by
  refine ⟨?_, ?_, ?_, rfl⟩
  · intro report now raws db
    simpa using importClientsLoop_counts report now raws db 0 0
  · intro report now raw rest db i s h
    rw [importClientsLoop, if_pos h]
  · intro report now raw rest db db1 i s e h hcc
    rw [importClientsLoop]
    rw [h]
    simp only [Bool.false_eq_true, if_false, hcc]

/-- A store already holding the name Alice on page 1, against which the
creation of the Alice candidate throws after the destructive clear. -/
def dbCollide : DB := ⟨[⟨1, "Alice", .fin 1, "", 0, 0, "11/10/2026", 0⟩], [], [], 2⟩

/-- C2 witness: the skip-and-continue equations applied at concrete inputs,
one for the empty-name candidate and one for a candidate whose creation
throws a uniqueness violation. -/
theorem claim2_import_per_candidate_witness :
    importClientsLoop honestReport nowImport [candEmptyName] emptyDB 0 0 =
      importClientsLoop honestReport nowImport [] emptyDB 0 1 ∧
    importClientsLoop honestReport nowImport [candAlice] dbCollide 0 0 =
      importClientsLoop honestReport nowImport [] dbCollide 0 1 :=
  ⟨claim2_import_per_candidate.2.1 honestReport nowImport candEmptyName [] emptyDB 0 0
     (by decide),
   claim2_import_per_candidate.2.2.1 honestReport nowImport candAlice [] dbCollide
     dbCollide 0 0 .constraintViolation (by decide) rfl⟩

/-- C3: an import whose payload text is not valid JSON aborts before any
destructive action: clearAllData does not run and the store is unchanged;
likewise when shape resolution yields zero candidates, no clear happens. -/
theorem claim3_parse_guards_clear :
    (∀ (report : Int → Option JsNum) (now : SimpleDate) (userConfirmed : Bool) (db : DB),
      handleImportPress report now none userConfirmed db = ⟨db, false, 0, 0, .invalidJson⟩) ∧
    (∀ (report : Int → Option JsNum) (now : SimpleDate) (p : JsValue)
      (userConfirmed : Bool) (db : DB),
      normalizeParsedInput p = [] →
      handleImportPress report now (some p) userConfirmed db =
        ⟨db, false, 0, 0, .noCandidates⟩) := by
  constructor
  · intro report now userConfirmed db; rfl
  · intro report now p userConfirmed db h
    simp [handleImportPress, h]

/-- C3 witness: a failed parse and a candidate-free parse (null payload) both
leave the concrete one-record store untouched with the clear flag down. -/
theorem claim3_parse_guards_clear_witness :
    handleImportPress honestReport nowImport none true dbCollide =
      ⟨dbCollide, false, 0, 0, .invalidJson⟩ ∧
    handleImportPress honestReport nowImport (some .null) true dbCollide =
      ⟨dbCollide, false, 0, 0, .noCandidates⟩ :=
  ⟨claim3_parse_guards_clear.1 honestReport nowImport true dbCollide,
   claim3_parse_guards_clear.2 honestReport nowImport .null true dbCollide rfl⟩

/-- The C9 candidate: a valid name and page, no dateAjout field, but a
dateAdded field carrying a concrete date string. -/
def candDateAdded : JsValue :=
  .obj [("nom", .str "Amel"), ("page", .num (.fin 3)), ("dateAdded", .str "01/01/2020")]

/-- C9: importing a candidate that carries dateAdded but no dateAjout stores
the today fallback, not the dateAdded value: the import pipeline never
consults the dateAdded synonym, although the candidate visibly carries it. -/
theorem claim9_dateAdded_ignored :
    (importClientsLoop honestReport nowImport [candDateAdded] emptyDB 0 0).1.clients.map
      (fun c => c.dateAjout) = ["11/10/2026"] ∧
    candidateDateAjout candDateAdded nowImport = formatDate nowImport ∧
    getField candDateAdded "dateAdded" = .str "01/01/2020" ∧
    ("11/10/2026" : String) ≠ "01/01/2020" :=
  ⟨rfl, rfl, rfl, by decide⟩
